import Mathlib

/-!
# Verification of the clothing-dataset conversion routine

This file embeds the dataset-format conversion logic of the repository
(the `categories` collection snippet and the `create_dataset` function from
`manuscript/10.object-detection-with-YOLO-v5.md`) as Lean definitions and
proves properties of them.

Modelling choices:
* Normalized coordinates (Python floats) are modelled as rationals `ℚ`.
* A label line `category_idx center_x center_y width height` is modelled as a
  structure holding the five fields in that order; the space-separated text
  rendering is a bijective image of this structure.
* The filesystem effect of one `create_dataset` call is modelled as the list
  of image paths and label files (path together with the list of lines) that
  the call has written before finishing or before the first uncaught Python
  exception; an uncaught exception is modelled as `Option ConvError` being
  `some` in the result, at which point processing stops (as exception
  propagation does in the source, which has no try/except).
* `urllib.request.urlopen` success is modelled as an oracle
  `fetch : String → Bool` on the source URL.
-/

namespace ClothingYolo

/-- A corner point from the `points` array: normalized `x`/`y` coordinates. -/
structure Point where
  x : ℚ
  y : ℚ
deriving DecidableEq

/-- One entry of a record's `annotation` array: its `label` array of category
strings and its two corner points (the source destructures `p1, p2 = points`,
so exactly two points are modelled as a pair). -/
structure Ann where
  label : List String
  points : Point × Point
deriving DecidableEq

/-- One source record: the image locator (`content` field) and its array of
labeled objects (`annotation` field, modelled as `anns`). -/
structure Row where
  content : String
  anns : List Ann
deriving DecidableEq

/-- All category strings of all records, in traversal order, embedding
`for c in clothing: for a in c['annotation']: categories.extend(a['label'])`. -/
def allLabels (rows : List Row) : List String :=
  rows.flatMap fun r => r.anns.flatMap fun a => a.label

/-- The category list of the source, embedding
`categories = list(set(categories)); categories.sort()`:
distinct category strings in lexicographic order.  The spec calls this
operation `buildCategoryIndex`; the integer index of a category is its
position in this list (looked up by `categories.index(label)`). -/
def buildCategoryIndex (rows : List Row) : List String :=
  List.insertionSort (· ≤ ·) (allLabels rows).dedup

/-- One line of a label file, `category_idx center_x center_y width height`. -/
structure LabelLine where
  catIdx : ℕ
  cx : ℚ
  cy : ℚ
  w : ℚ
  h : ℚ
deriving DecidableEq

/-- The line written for one category label of one object, embedding
`x1, y1 = p1['x'], p1['y']`; `x2, y2 = p2['x'], p2['y']`;
`bbox_width = x2 - x1`; `bbox_height = y2 - y1`;
`label_file.write(f"... {x1 + bbox_width / 2} {y1 + bbox_height / 2} ...")`.
The source takes the two corners in the order given; it does not reorder
or normalize them. -/
def mkLine (catIdx : ℕ) (ps : Point × Point) : LabelLine :=
  let x1 := ps.1.x
  let y1 := ps.1.y
  let x2 := ps.2.x
  let y2 := ps.2.y
  let bw := x2 - x1
  let bh := y2 - y1
  ⟨catIdx, x1 + bw / 2, y1 + bh / 2, bw, bh⟩

/-- Uncaught Python exceptions of `create_dataset`: `ValueError` from
`categories.index(label)` on an unknown label, and any exception raised by
`urllib.request.urlopen` on the image URL. -/
inductive ConvError where
  | unknownCategory (lab : String)
  | fetchError (src : String)
deriving DecidableEq

/-- The inner `for label in a['label']` loop for one object: look up
`categories.index(label)` — raising on an unknown label, after which no
further line of this object is written — and otherwise write one line. -/
def annLabelLoop (cats : List String) (ps : Point × Point) :
    List String → List LabelLine × Option ConvError
  | [] => ([], none)
  | lab :: rest =>
    if lab ∈ cats then
      let r := annLabelLoop cats ps rest
      (mkLine (cats.indexOf lab) ps :: r.1, r.2)
    else ([], some (ConvError.unknownCategory lab))

/-- Lines written for one entry of the `annotation` array. -/
def writeAnnLabels (cats : List String) (a : Ann) : List LabelLine × Option ConvError :=
  annLabelLoop cats a.points a.label

/-- The `for a in row['annotation']` loop: lines written to one record's label
file, stopping at the first uncaught exception (lines already written stay in
the file). -/
def writeLabels (cats : List String) : List Ann → List LabelLine × Option ConvError
  | [] => ([], none)
  | a :: rest =>
    match writeAnnLabels cats a with
    | (ls, some e) => (ls, some e)
    | (ls, none) =>
      let r := writeLabels cats rest
      (ls ++ r.1, r.2)

/-- Files written by one `create_dataset` call: the image paths and the label
files (path together with the lines of its content). -/
structure FileState where
  images : List String
  labels : List (String × List LabelLine)
deriving DecidableEq

/-- `str(images_path / image_name)` for `image_name = f"{img_id}.jpeg"`. -/
def imagePath (dtype : String) (i : ℕ) : String :=
  "clothing/images/" ++ dtype ++ "/" ++ toString i ++ ".jpeg"

/-- `str(labels_path / label_name)` for `label_name = f"{img_id}.txt"`. -/
def labelPath (dtype : String) (i : ℕ) : String :=
  "clothing/labels/" ++ dtype ++ "/" ++ toString i ++ ".txt"

/-- The `for img_id, row in enumerate(clothing)` loop of `create_dataset`,
with `i` the `enumerate` counter.  Per record: fetch the image (an exception
aborts the whole call, writing nothing for this record), save the image, open
the label file in mode `w` (the file now exists, empty), then write the label
lines; an exception while writing aborts the call, leaving the lines written
so far in the file. -/
def createGo (fetch : String → Bool) (cats : List String) (dtype : String) :
    List Row → ℕ → FileState × Option ConvError
  | [], _ => (⟨[], []⟩, none)
  | row :: rest, i =>
    if fetch row.content then
      match (writeLabels cats row.anns).2 with
      | some e =>
        (⟨[imagePath dtype i], [(labelPath dtype i, (writeLabels cats row.anns).1)]⟩, some e)
      | none =>
        let r := createGo fetch cats dtype rest (i + 1)
        (⟨imagePath dtype i :: r.1.images,
          (labelPath dtype i, (writeLabels cats row.anns).1) :: r.1.labels⟩, r.2)
    else (⟨[], []⟩, some (ConvError.fetchError row.content))

/-- `create_dataset(clothing, categories, dataset_type)`: process the records
in order with ids `0, 1, 2, ...`. -/
def create_dataset (fetch : String → Bool) (rows : List Row) (cats : List String)
    (dtype : String) : FileState × Option ConvError :=
  createGo fetch cats dtype rows 0

/-- A fetch oracle for which every URL succeeds. -/
def fetchAll : String → Bool := fun _ => true

/-- A fetch oracle failing exactly on the URL `"bad"`. -/
def fetchNotBad : String → Bool := fun s => s != "bad"

/-- Concrete corner pair `(0,0)`–`(1,1)` used in concrete records. -/
def ptsUnit : Point × Point := (⟨0, 0⟩, ⟨1, 1⟩)

/-- Concrete record with a single object labeled `Tops`. -/
def rowTop : Row := ⟨"url0", [⟨["Tops"], ptsUnit⟩]⟩

/-- Concrete record whose single object has the label `Gloves`. -/
def rowBad : Row := ⟨"url1", [⟨["Gloves"], ptsUnit⟩]⟩

/-- Concrete record whose image URL is `"bad"`. -/
def rowFetchBad : Row := ⟨"bad", []⟩

/-- Concrete record with no labeled objects. -/
def rowNoAnns : Row := ⟨"u", []⟩

/-- Concrete record whose single object carries two category labels. -/
def annTwoLabels : Ann := ⟨["Jeans", "Tops"], ptsUnit⟩

/-- Concrete single-label object. -/
def annOneLabel : Ann := ⟨["Tops"], ptsUnit⟩

/-- Concrete record with two objects, the first carrying two labels. -/
def rowTwoAnns : Row := ⟨"u", [annTwoLabels, annOneLabel]⟩

/-- Concrete record with one object whose two corners coincide. -/
def rowDegen : Row := ⟨"u", [⟨["Tops"], (⟨1/2, 1/2⟩, ⟨1/2, 1/2⟩)⟩]⟩

/-! ## Helper lemmas -/

/-- If every label of the list is a known category, the inner label loop
writes one line per label, in order, and raises no error. -/
theorem annLabelLoop_all_mem (cats : List String) (ps : Point × Point) :
    ∀ labs : List String, (∀ l ∈ labs, l ∈ cats) →
      annLabelLoop cats ps labs = (labs.map fun l => mkLine (cats.indexOf l) ps, none)
  | [], _ => by simp [annLabelLoop]
  | lab :: rest, h => by
    have hmem : lab ∈ cats := h lab (List.mem_cons_self _ _)
    have ih := annLabelLoop_all_mem cats ps rest (fun l hl => h l (List.mem_cons_of_mem _ hl))
    simp [annLabelLoop, hmem, ih]

/-- Once a prefix of the record list aborts, appended records are ignored. -/
theorem createGo_append_some (f : String → Bool) (cats : List String) (d : String)
    (rs1 rs2 : List Row) (i : ℕ) (e : ConvError)
    (h : (createGo f cats d rs1 i).2 = some e) :
    createGo f cats d (rs1 ++ rs2) i = createGo f cats d rs1 i := by
  induction rs1 generalizing i with
  | nil => simp [createGo] at h
  | cons r rest ih =>
    by_cases hf : f r.content
    · cases hw : (writeLabels cats r.anns).2 with
      | some e2 => simp [List.cons_append, createGo, hf, hw]
      | none =>
        simp only [createGo, hf, if_true, hw] at h
        simp [List.cons_append, createGo, hf, hw, ih (i + 1) h]
    · simp [List.cons_append, createGo, hf]

/-- If a prefix of the record list fully succeeds, processing the appended
records continues after it, with the counter advanced by the prefix length. -/
theorem createGo_append_none (f : String → Bool) (cats : List String) (d : String)
    (rs1 rs2 : List Row) (i : ℕ)
    (h : (createGo f cats d rs1 i).2 = none) :
    (createGo f cats d (rs1 ++ rs2) i).1.images
        = (createGo f cats d rs1 i).1.images
            ++ (createGo f cats d rs2 (i + rs1.length)).1.images ∧
    (createGo f cats d (rs1 ++ rs2) i).1.labels
        = (createGo f cats d rs1 i).1.labels
            ++ (createGo f cats d rs2 (i + rs1.length)).1.labels ∧
    (createGo f cats d (rs1 ++ rs2) i).2 = (createGo f cats d rs2 (i + rs1.length)).2 := by
  induction rs1 generalizing i with
  | nil => simp [createGo]
  | cons r rest ih =>
    by_cases hf : f r.content
    · cases hw : (writeLabels cats r.anns).2 with
      | some e2 => simp [createGo, hf, hw] at h
      | none =>
        simp only [createGo, hf, if_true, hw] at h
        have ihr := ih (i + 1) h
        simp only [List.cons_append, createGo, hf, if_true, hw, List.length_cons]
        have harith : i + 1 + rest.length = i + (rest.length + 1) := by omega
        rw [harith] at ihr
        simp [ihr.1, ihr.2.1, ihr.2.2]
    · simp [createGo, hf] at h

/-! ## Claims -/

/-- Claim C1, counterexample: the source does not resolve the corners by
componentwise min/max; with the corners given in the order
`(0.3,0.6)`,`(0.1,0.2)` the derived box differs from the one derived from
`(0.1,0.2)`,`(0.3,0.6)` (its width and height are negated). -/
theorem C1_counterexample :
    mkLine 0 (⟨3/10, 6/10⟩, ⟨1/10, 2/10⟩) ≠ mkLine 0 (⟨1/10, 2/10⟩, ⟨3/10, 6/10⟩) := by
  intro h
  have hw := congrArg LabelLine.w h
  norm_num [mkLine] at hw

/-- Claim C1, amended: the source uses `corner_a` as `(x1,y1)` and `corner_b`
as `(x2,y2)` in the order given, with no min/max resolution; swapping the two
corners preserves the derived center but negates width and height, so the two
orders produce the same box only when width and height are both zero. -/
theorem C1_swap_negates_size (k : ℕ) (p q : Point) :
    (mkLine k (q, p)).cx = (mkLine k (p, q)).cx ∧
    (mkLine k (q, p)).cy = (mkLine k (p, q)).cy ∧
    (mkLine k (q, p)).w = -(mkLine k (p, q)).w ∧
    (mkLine k (q, p)).h = -(mkLine k (p, q)).h := by
  refine ⟨?_, ?_, ?_, ?_⟩ <;> simp [mkLine] <;> ring

/-- Claim C4: `buildCategoryIndex` collects the distinct category strings and
sorts them lexicographically (the index of a category being its position in
the resulting list); it is deterministic — two runs over record sets with the
same category set, in any order, produce an identical mapping. -/
theorem C4_buildCategoryIndex_deterministic (rows1 rows2 : List Row)
    (h : ∀ c, c ∈ allLabels rows1 ↔ c ∈ allLabels rows2) :
    buildCategoryIndex rows1 = buildCategoryIndex rows2 ∧
    List.Sorted (fun a b => a ≤ b) (buildCategoryIndex rows1) ∧
    (buildCategoryIndex rows1).Nodup ∧
    (∀ c, c ∈ buildCategoryIndex rows1 ↔ c ∈ allLabels rows1) := by
  have hs1 : List.Sorted (fun a b => a ≤ b) (buildCategoryIndex rows1) :=
    List.sorted_insertionSort _ _
  have hs2 : List.Sorted (fun a b => a ≤ b) (buildCategoryIndex rows2) :=
    List.sorted_insertionSort _ _
  have hp1 := List.perm_insertionSort (fun a b : String => a ≤ b) (allLabels rows1).dedup
  have hp2 := List.perm_insertionSort (fun a b : String => a ≤ b) (allLabels rows2).dedup
  have hn1 : (buildCategoryIndex rows1).Nodup :=
    hp1.nodup_iff.mpr (List.nodup_dedup _)
  have hn2 : (buildCategoryIndex rows2).Nodup :=
    hp2.nodup_iff.mpr (List.nodup_dedup _)
  have hmem1 : ∀ c, c ∈ buildCategoryIndex rows1 ↔ c ∈ allLabels rows1 := by
    intro c
    rw [buildCategoryIndex, hp1.mem_iff, List.mem_dedup]
  have hmem2 : ∀ c, c ∈ buildCategoryIndex rows2 ↔ c ∈ allLabels rows2 := by
    intro c
    rw [buildCategoryIndex, hp2.mem_iff, List.mem_dedup]
  have hperm : List.Perm (buildCategoryIndex rows1) (buildCategoryIndex rows2) := by
    rw [List.perm_ext_iff_of_nodup hn1 hn2]
    intro c
    rw [hmem1 c, hmem2 c]
    exact h c
  exact ⟨List.eq_of_perm_of_sorted hperm hs1 hs2, hs1, hn1, hmem1⟩

/-- Claim C4, witness: two concrete record lists carrying the categories
`Tops`, `Jeans` in opposite orders get the identical sorted index. -/
theorem C4_witness :
    buildCategoryIndex [⟨"u", [⟨["Tops"], ptsUnit⟩]⟩, ⟨"v", [⟨["Jeans"], ptsUnit⟩]⟩]
        = buildCategoryIndex [⟨"v", [⟨["Jeans"], ptsUnit⟩]⟩, ⟨"u", [⟨["Tops"], ptsUnit⟩]⟩] ∧
    List.Sorted (fun a b => a ≤ b)
      (buildCategoryIndex [⟨"u", [⟨["Tops"], ptsUnit⟩]⟩, ⟨"v", [⟨["Jeans"], ptsUnit⟩]⟩]) := by
  have h := C4_buildCategoryIndex_deterministic
    [⟨"u", [⟨["Tops"], ptsUnit⟩]⟩, ⟨"v", [⟨["Jeans"], ptsUnit⟩]⟩]
    [⟨"v", [⟨["Jeans"], ptsUnit⟩]⟩, ⟨"u", [⟨["Tops"], ptsUnit⟩]⟩]
    (by
      intro c
      show c ∈ ["Tops", "Jeans"] ↔ c ∈ ["Jeans", "Tops"]
      simp [or_comm])
  exact ⟨h.1, h.2.1⟩

/-- Claim C5: when the corners are already ordered (`x1 ≤ x2`, `y1 ≤ y2`), the
derived line has `width = x2-x1`, `height = y2-y1`, `center_x = x1 + width/2`,
`center_y = y1 + height/2`. -/
theorem C5_box_formulas (k : ℕ) (p1 p2 : Point)
    (_hx : p1.x ≤ p2.x) (_hy : p1.y ≤ p2.y) :
    (mkLine k (p1, p2)).w = p2.x - p1.x ∧
    (mkLine k (p1, p2)).h = p2.y - p1.y ∧
    (mkLine k (p1, p2)).cx = p1.x + (p2.x - p1.x) / 2 ∧
    (mkLine k (p1, p2)).cy = p1.y + (p2.y - p1.y) / 2 := by
  exact ⟨rfl, rfl, rfl, rfl⟩

/-- Claim C5, witness: corners `(0.1,0.2)`,`(0.3,0.6)` yield `center_x = 0.2`,
`center_y = 0.4`, `width = 0.2`, `height = 0.4` (exactly, hence within any
tolerance). -/
theorem C5_witness :
    (mkLine 0 (⟨1/10, 2/10⟩, ⟨3/10, 6/10⟩)).cx = 2/10 ∧
    (mkLine 0 (⟨1/10, 2/10⟩, ⟨3/10, 6/10⟩)).cy = 4/10 ∧
    (mkLine 0 (⟨1/10, 2/10⟩, ⟨3/10, 6/10⟩)).w = 2/10 ∧
    (mkLine 0 (⟨1/10, 2/10⟩, ⟨3/10, 6/10⟩)).h = 4/10 := by
  obtain ⟨h1, h2, h3, h4⟩ :=
    C5_box_formulas 0 ⟨1/10, 2/10⟩ ⟨3/10, 6/10⟩ (by norm_num) (by norm_num)
  refine ⟨?_, ?_, ?_, ?_⟩
  · rw [h3]; norm_num
  · rw [h4]; norm_num
  · rw [h1]; norm_num
  · rw [h2]; norm_num

/-- Claim C2, counterexample: with three records whose middle one carries the
unknown category `Gloves` (index `["Tops"]`), the call aborts with the
uncaught lookup error: the third record is never processed (only label files
`0` and `1` exist) and no per-record failure report is produced. -/
theorem C2_counterexample :
    (create_dataset fetchAll [rowTop, rowBad, rowTop] ["Tops"] "train").2
        = some (ConvError.unknownCategory "Gloves") ∧
    ((create_dataset fetchAll [rowTop, rowBad, rowTop] ["Tops"] "train").1.labels.map
        Prod.fst) = [labelPath "train" 0, labelPath "train" 1] := by
  constructor <;>
    simp [create_dataset, createGo, writeLabels, writeAnnLabels, annLabelLoop,
      fetchAll, rowTop, rowBad, ptsUnit]

/-- Claim C2, amended: a category string absent from the category list raises
an uncaught `ValueError` from `categories.index`, aborting the whole call:
records before the failing one are processed, the failing record keeps its
partially written label file, no later record is processed, and the error is
the overall result — there is no per-record failure report. -/
theorem C2_unknown_category_aborts (f : String → Bool) (cats : List String) (d : String)
    (rows1 rows2 : List Row) (r : Row) (lab : String)
    (h1 : (createGo f cats d rows1 0).2 = none)
    (hf : f r.content = true)
    (hw : (writeLabels cats r.anns).2 = some (ConvError.unknownCategory lab)) :
    (create_dataset f (rows1 ++ r :: rows2) cats d).2
        = some (ConvError.unknownCategory lab) ∧
    (create_dataset f (rows1 ++ r :: rows2) cats d).1.images
        = (createGo f cats d rows1 0).1.images ++ [imagePath d rows1.length] ∧
    (create_dataset f (rows1 ++ r :: rows2) cats d).1.labels
        = (createGo f cats d rows1 0).1.labels
            ++ [(labelPath d rows1.length, (writeLabels cats r.anns).1)] := by
  obtain ⟨hi, hl, he⟩ := createGo_append_none f cats d rows1 (r :: rows2) 0 h1
  unfold create_dataset
  rw [he, hi, hl]
  simp [createGo, hf, hw]

/-- Claim C2, amended, witness: concrete instance with records
`[rowTop, rowBad, rowTop]` and category list `["Tops"]`. -/
theorem C2_witness :
    (create_dataset fetchAll ([rowTop] ++ rowBad :: [rowTop]) ["Tops"] "train").2
        = some (ConvError.unknownCategory "Gloves") ∧
    (create_dataset fetchAll ([rowTop] ++ rowBad :: [rowTop]) ["Tops"] "train").1.images
        = (createGo fetchAll ["Tops"] "train" [rowTop] 0).1.images
            ++ [imagePath "train" [rowTop].length] ∧
    (create_dataset fetchAll ([rowTop] ++ rowBad :: [rowTop]) ["Tops"] "train").1.labels
        = (createGo fetchAll ["Tops"] "train" [rowTop] 0).1.labels
            ++ [(labelPath "train" [rowTop].length, (writeLabels ["Tops"] rowBad.anns).1)] :=
  C2_unknown_category_aborts fetchAll ["Tops"] "train" [rowTop] [rowTop] rowBad "Gloves"
    (by simp [createGo, writeLabels, writeAnnLabels, annLabelLoop, fetchAll, rowTop, ptsUnit])
    rfl
    (by simp [writeLabels, writeAnnLabels, annLabelLoop, rowBad, ptsUnit])

/-- Claim C3, counterexample: with three records whose middle one has the
unfetchable URL `"bad"`, the call aborts with the uncaught fetch error: only
record `0` is processed, record `2` is not, and no failure is recorded in any
report — contradicting the claimed continue-and-report behavior. -/
theorem C3_counterexample :
    (create_dataset fetchNotBad [rowTop, rowFetchBad, rowTop] ["Tops"] "train").2
        = some (ConvError.fetchError "bad") ∧
    ((create_dataset fetchNotBad [rowTop, rowFetchBad, rowTop] ["Tops"] "train").1.labels.map
        Prod.fst) = [labelPath "train" 0] := by
  constructor <;>
    simp [create_dataset, createGo, writeLabels, writeAnnLabels, annLabelLoop,
      fetchNotBad, rowTop, rowFetchBad, ptsUnit]

/-- Claim C3, amended: a fetch failure raises an uncaught exception that
aborts the whole call: records before the failing one are processed, the
failing record and all later records produce no files, and the error is the
overall result — the batch does not continue and no report is produced. -/
theorem C3_fetch_failure_aborts (f : String → Bool) (cats : List String) (d : String)
    (rows1 rows2 : List Row) (r : Row)
    (h1 : (createGo f cats d rows1 0).2 = none)
    (hf : f r.content = false) :
    (create_dataset f (rows1 ++ r :: rows2) cats d).2
        = some (ConvError.fetchError r.content) ∧
    (create_dataset f (rows1 ++ r :: rows2) cats d).1.images
        = (createGo f cats d rows1 0).1.images ∧
    (create_dataset f (rows1 ++ r :: rows2) cats d).1.labels
        = (createGo f cats d rows1 0).1.labels := by
  obtain ⟨hi, hl, he⟩ := createGo_append_none f cats d rows1 (r :: rows2) 0 h1
  unfold create_dataset
  rw [he, hi, hl]
  simp [createGo, hf]

/-- Claim C3, amended, witness: concrete instance with the middle record's
URL `"bad"` rejected by the fetch oracle. -/
theorem C3_witness :
    (create_dataset fetchNotBad ([rowTop] ++ rowFetchBad :: [rowTop]) ["Tops"] "train").2
        = some (ConvError.fetchError "bad") ∧
    (create_dataset fetchNotBad ([rowTop] ++ rowFetchBad :: [rowTop]) ["Tops"] "train").1.images
        = (createGo fetchNotBad ["Tops"] "train" [rowTop] 0).1.images ∧
    (create_dataset fetchNotBad ([rowTop] ++ rowFetchBad :: [rowTop]) ["Tops"] "train").1.labels
        = (createGo fetchNotBad ["Tops"] "train" [rowTop] 0).1.labels :=
  C3_fetch_failure_aborts fetchNotBad ["Tops"] "train" [rowTop] [rowTop] rowFetchBad
    (by simp [createGo, writeLabels, writeAnnLabels, annLabelLoop, fetchNotBad, rowTop, ptsUnit])
    rfl

/-- Claim C6, counterexample: a record whose object has coincident corners is
converted without any error and its zero-width, zero-height line is written
to the label file — the degenerate box is neither rejected nor skipped. -/
theorem C6_counterexample :
    (create_dataset fetchAll [rowDegen] ["Tops"] "train").2 = none ∧
    (create_dataset fetchAll [rowDegen] ["Tops"] "train").1.labels
        = [(labelPath "train" 0, [⟨0, 1/2, 1/2, 0, 0⟩])] := by
  constructor <;>
    norm_num [create_dataset, createGo, writeLabels, writeAnnLabels, annLabelLoop, mkLine,
      fetchAll, rowDegen]

/-- Claim C6, amended: the source performs no degeneracy check: any object
whose derived width or height is zero or negative (and whose labels are
known) is silently written to the label file as-is — one line per label,
each carrying the computed zero or negative size — with no error, no skip
and no warning. -/
theorem C6_degenerate_silently_written (cats : List String) (a : Ann)
    (hlab : ∀ l ∈ a.label, l ∈ cats)
    (hdeg : (mkLine 0 a.points).w ≤ 0 ∨ (mkLine 0 a.points).h ≤ 0) :
    writeAnnLabels cats a
        = (a.label.map fun l => mkLine (cats.indexOf l) a.points, none) ∧
    ∀ line ∈ (writeAnnLabels cats a).1, line.w ≤ 0 ∨ line.h ≤ 0 := by
  have hmain : writeAnnLabels cats a
      = (a.label.map fun l => mkLine (cats.indexOf l) a.points, none) :=
    annLabelLoop_all_mem cats a.points a.label hlab
  refine ⟨hmain, ?_⟩
  intro line hline
  rw [hmain] at hline
  simp only [List.mem_map] at hline
  obtain ⟨l, _, rfl⟩ := hline
  exact hdeg

/-- Claim C6, amended, witness: a height-degenerate object like the
repository's own `Jackets` record — corners `(0,0.6)`,`(0.03,0.6)` with
height `0` but positive width — is written as-is with no error. -/
theorem C6_witness :
    writeAnnLabels ["Jackets"] ⟨["Jackets"], (⟨0, 6/10⟩, ⟨3/100, 6/10⟩)⟩
        = ((["Jackets"].map
            fun l => mkLine (List.indexOf l ["Jackets"]) (⟨0, 6/10⟩, ⟨3/100, 6/10⟩)), none) ∧
    ∀ line ∈ (writeAnnLabels ["Jackets"] ⟨["Jackets"], (⟨0, 6/10⟩, ⟨3/100, 6/10⟩)⟩).1,
      line.w ≤ 0 ∨ line.h ≤ 0 :=
  C6_degenerate_silently_written ["Jackets"] ⟨["Jackets"], (⟨0, 6/10⟩, ⟨3/100, 6/10⟩)⟩
    (by decide)
    (Or.inr (by norm_num [mkLine]))

/-- Claim C7: a record with no labeled objects gets an empty label file
(the file is created by opening it in mode `w`, so it exists with empty
content) together with its image, and processing continues with the next
record — the record counts as processed. -/
theorem C7_empty_label_file (f : String → Bool) (cats : List String) (d : String)
    (row : Row) (rest : List Row) (i : ℕ)
    (h : row.anns = []) (hf : f row.content = true) :
    (createGo f cats d (row :: rest) i).1.labels
        = (labelPath d i, []) :: (createGo f cats d rest (i + 1)).1.labels ∧
    (createGo f cats d (row :: rest) i).1.images
        = imagePath d i :: (createGo f cats d rest (i + 1)).1.images ∧
    (createGo f cats d (row :: rest) i).2 = (createGo f cats d rest (i + 1)).2 := by
  refine ⟨?_, ?_, ?_⟩ <;> simp [createGo, hf, h, writeLabels]

/-- Claim C7, witness: concrete record with no objects at position 0. -/
theorem C7_witness :
    (createGo fetchAll [] "train" (rowNoAnns :: []) 0).1.labels
        = (labelPath "train" 0, []) :: (createGo fetchAll [] "train" [] (0 + 1)).1.labels ∧
    (createGo fetchAll [] "train" (rowNoAnns :: []) 0).1.images
        = imagePath "train" 0 :: (createGo fetchAll [] "train" [] (0 + 1)).1.images ∧
    (createGo fetchAll [] "train" (rowNoAnns :: []) 0).2
        = (createGo fetchAll [] "train" [] (0 + 1)).2 :=
  C7_empty_label_file fetchAll [] "train" rowNoAnns [] 0 rfl rfl

/-- Claim C8, counterexample: a record with exactly two objects whose first
object carries two category labels gets a three-line label file — the source
writes one line per category string, not one line per object. -/
theorem C8_counterexample :
    rowTwoAnns.anns.length = 2 ∧
    ((create_dataset fetchAll [rowTwoAnns] ["Jeans", "Tops"] "train").1.labels.map
        (fun pr => pr.2.length)) = [3] := by
  constructor
  · rfl
  · simp [create_dataset, createGo, writeLabels, writeAnnLabels, annLabelLoop, fetchAll,
      rowTwoAnns, annTwoLabels, annOneLabel, ptsUnit]

/-- Claim C8, amended: a record with two objects each carrying exactly one
(known) category label gets a two-line label file, one line per object,
in the objects' input order, each line holding the category index followed by
center and size. -/
theorem C8_two_annotations_two_lines (f : String → Bool) (cats : List String) (d : String)
    (u : String) (l1 l2 : String) (ps1 ps2 : Point × Point) (rest : List Row) (i : ℕ)
    (hf : f u = true) (h1 : l1 ∈ cats) (h2 : l2 ∈ cats) :
    (createGo f cats d ((⟨u, [⟨[l1], ps1⟩, ⟨[l2], ps2⟩]⟩ : Row) :: rest) i).1.labels
        = (labelPath d i, [mkLine (cats.indexOf l1) ps1, mkLine (cats.indexOf l2) ps2])
            :: (createGo f cats d rest (i + 1)).1.labels := by
  simp [createGo, hf, writeLabels, writeAnnLabels, annLabelLoop, h1, h2]

/-- Claim C8, amended, witness: concrete record with two single-label
objects labeled `Tops` and `Jeans`. -/
theorem C8_witness :
    (createGo fetchAll ["Jeans", "Tops"] "train"
        ((⟨"u", [⟨["Tops"], ptsUnit⟩, ⟨["Jeans"], ptsUnit⟩]⟩ : Row) :: []) 0).1.labels
      = (labelPath "train" 0,
          [mkLine (List.indexOf "Tops" ["Jeans", "Tops"]) ptsUnit,
           mkLine (List.indexOf "Jeans" ["Jeans", "Tops"]) ptsUnit])
          :: (createGo fetchAll ["Jeans", "Tops"] "train" [] (0 + 1)).1.labels :=
  C8_two_annotations_two_lines fetchAll ["Jeans", "Tops"] "train" "u" "Tops" "Jeans"
    ptsUnit ptsUnit [] 0 rfl (by decide) (by decide)

/-- Per-record success lemma for records without objects: such records never
abort the loop. -/
theorem createGo_no_anns_ok (f : String → Bool) (cats : List String) (d : String) :
    ∀ (rows : List Row) (i : ℕ),
      (∀ r ∈ rows, r.anns = []) → (∀ r ∈ rows, f r.content = true) →
      (createGo f cats d rows i).2 = none
  | [], _, _, _ => by simp [createGo]
  | r :: rest, i, h, hf => by
    have h1 : r.anns = [] := h r (List.mem_cons_self _ _)
    have hf1 : f r.content = true := hf r (List.mem_cons_self _ _)
    have ih := createGo_no_anns_ok f cats d rest (i + 1)
      (fun x hx => h x (List.mem_cons_of_mem _ hx))
      (fun x hx => hf x (List.mem_cons_of_mem _ hx))
    simp [createGo, hf1, h1, writeLabels, ih]

/-- Claim C9, counterexample: on a record set with no objects at all, the
category collection returns the empty list instead of failing, and the
conversion proceeds normally, writing an empty label file — there is no
`EmptyCategorySet` failure and the conversion is not blocked. -/
theorem C9_counterexample :
    buildCategoryIndex [rowNoAnns] = [] ∧
    (create_dataset fetchAll [rowNoAnns] (buildCategoryIndex [rowNoAnns]) "train").2 = none ∧
    (create_dataset fetchAll [rowNoAnns] (buildCategoryIndex [rowNoAnns]) "train").1.labels
        = [(labelPath "train" 0, [])] := by
  refine ⟨rfl, ?_, ?_⟩ <;>
    simp [create_dataset, createGo, writeLabels, fetchAll, rowNoAnns]

/-- Claim C9, amended: when the input records contain no objects at all, the
category collection succeeds with the empty list (it has no failure path),
and the conversion proceeds, succeeding on every fetchable record. -/
theorem C9_empty_category_set_no_failure (rows : List Row) (f : String → Bool) (d : String)
    (h : ∀ r ∈ rows, r.anns = []) (hf : ∀ r ∈ rows, f r.content = true) :
    buildCategoryIndex rows = [] ∧
    (create_dataset f rows (buildCategoryIndex rows) d).2 = none := by
  have hall : allLabels rows = [] := by
    rw [allLabels, List.flatMap_eq_nil_iff]
    intro r hr
    simp [h r hr]
  constructor
  · rw [buildCategoryIndex, hall]
    rfl
  · exact createGo_no_anns_ok f _ d rows 0 h hf

/-- Claim C9, amended, witness: a single record with no objects. -/
theorem C9_witness :
    buildCategoryIndex [rowNoAnns] = [] ∧
    (create_dataset fetchAll [rowNoAnns] (buildCategoryIndex [rowNoAnns]) "train").2 = none :=
  C9_empty_category_set_no_failure [rowNoAnns] fetchAll "train"
    (by intro r hr; simp at hr; rw [hr]; rfl)
    (by intro r hr; rfl)

/-- Claim C10: an object whose `label` array holds `k` known category strings
produces `k` label lines — one line per category string, all with the same
center, width and height (derived from the object's corner points), the lines
differing only in the category index. -/
theorem C10_one_line_per_category (cats : List String) (a : Ann)
    (h : ∀ l ∈ a.label, l ∈ cats) :
    writeAnnLabels cats a
        = (a.label.map fun l => mkLine (cats.indexOf l) a.points, none) ∧
    (writeAnnLabels cats a).1.length = a.label.length ∧
    ∀ line ∈ (writeAnnLabels cats a).1,
      line.cx = (mkLine 0 a.points).cx ∧ line.cy = (mkLine 0 a.points).cy ∧
      line.w = (mkLine 0 a.points).w ∧ line.h = (mkLine 0 a.points).h := by
  have hmain : writeAnnLabels cats a
      = (a.label.map fun l => mkLine (cats.indexOf l) a.points, none) :=
    annLabelLoop_all_mem cats a.points a.label h
  refine ⟨hmain, ?_, ?_⟩
  · rw [hmain]
    simp
  · intro line hline
    rw [hmain] at hline
    simp only [List.mem_map] at hline
    obtain ⟨l, _, rfl⟩ := hline
    exact ⟨rfl, rfl, rfl, rfl⟩

/-- Claim C10, witness: the concrete object carrying the two labels
`Jeans`, `Tops` produces exactly two lines with identical geometry. -/
theorem C10_witness :
    writeAnnLabels ["Jeans", "Tops"] annTwoLabels
        = (annTwoLabels.label.map
            fun l => mkLine (List.indexOf l ["Jeans", "Tops"]) annTwoLabels.points, none) ∧
    (writeAnnLabels ["Jeans", "Tops"] annTwoLabels).1.length = annTwoLabels.label.length ∧
    ∀ line ∈ (writeAnnLabels ["Jeans", "Tops"] annTwoLabels).1,
      line.cx = (mkLine 0 annTwoLabels.points).cx ∧
      line.cy = (mkLine 0 annTwoLabels.points).cy ∧
      line.w = (mkLine 0 annTwoLabels.points).w ∧
      line.h = (mkLine 0 annTwoLabels.points).h :=
  C10_one_line_per_category ["Jeans", "Tops"] annTwoLabels (by decide)

end ClothingYolo
